import Mathlib

/-!
Verification of the conversation controller of SuperAgent-Trader
(src/SuperAgent-UI/src/App.jsx). The component keeps four pieces of
state (the useState hooks `prompt`, `messages`, `isLoading`, `error`)
and has one operation, the async `handleSubmit` event handler, which
performs an optimistic append of the user message, issues one HTTP
request, and on settlement either appends the agent reply or rolls the
optimistic entry back and records an error.

The embedding models `handleSubmit` as the list of primitive state
updates it performs in source order (its trace), so that both the
final state and every intermediate state are available to theorems.
-/

namespace SuperAgent

/-- Message roles, the `role` field values `user` and `agent` in App.jsx. -/
inductive Role
  | user
  | agent
  deriving DecidableEq, Repr

/-- A chat message `{ role, content }` as stored in the `messages` array. -/
structure Message where
  role : Role
  content : String
  deriving DecidableEq, Repr

/-- The component state of `App`: the four useState hooks
`prompt` (the controlled input value), `messages`, `isLoading`
(the request-in-flight flag) and `error` (the last error, `null` when none). -/
structure ConvState where
  prompt : String
  messages : List Message
  isLoading : Bool
  error : Option String
  deriving DecidableEq, Repr

/-- A JavaScript value as far as the expression `data?.response` can see it:
the field may be absent (undefined), explicitly null, or a string. -/
inductive JsVal
  | undefined
  | null
  | str (s : String)
  deriving DecidableEq, Repr

/-- The JavaScript nullish coalescing operator `v ?? fallback`: null and
undefined are replaced by the fallback, everything else is kept. -/
def nullishCoalesce (v : JsVal) (fallback : String) : String :=
  match v with
  | JsVal.str s => s
  | _ => fallback

/-- The parsed success payload of the outbound call; the code reads exactly
the field `data?.response` from it. -/
structure Payload where
  response : JsVal
  deriving DecidableEq, Repr

/-- Modelled from the spec: the transport library (axios) is an external
dependency, not code of this repository. Per the spec, the failure
conditions of the outbound call are network failure, non-2xx status, and a
response body that cannot be parsed as the expected structure; all of them
reach the `catch` block of `handleSubmit` as a rejected awaited call, and
the code never inspects which one occurred. -/
inductive FailureKind
  | networkError
  | non2xxStatus
  | malformedBody
  deriving DecidableEq, Repr

/-- The settlement of the awaited `axios.post` call: a parsed payload on
success, or one of the failure kinds. -/
inductive Outcome
  | ok (p : Payload)
  | failure (k : FailureKind)
  deriving DecidableEq, Repr

/-- Whitespace as removed by the JavaScript `String.prototype.trim` used on
line 14 of App.jsx (restricted to the common ASCII whitespace characters). -/
def isJsWhitespace (c : Char) : Bool :=
  c == ' ' || c == '\t' || c == '\n' || c == '\r'

/-- The JavaScript `prompt.trim()` call of line 14: remove leading and
trailing whitespace from the string. -/
def jsTrim (s : String) : String :=
  ⟨((s.data.dropWhile isJsWhitespace).reverse.dropWhile isJsWhitespace).reverse⟩

/-- The fixed user-facing error string set in the `catch` block. -/
def errorMessage : String :=
  "Unable to contact the SuperAgent backend. Please try again."

/-- The fixed fallback substituted when `data?.response` is nullish. -/
def noResponseFallback : String := "No response received."

/-- One primitive side effect of `handleSubmit`:
`appendMessage m` is `setMessages((prev) => [...prev, m])`,
`clearPrompt` is `setPrompt` with the empty string,
`setLoading b` is `setIsLoading(b)`,
`setError e` is `setError(e)`,
`dropLastMessage` is `setMessages((prev) => prev.slice(0, -1))`, and
`issueRequest p` marks the awaited `axios.post` call sending `{ prompt: p }`. -/
inductive Effect
  | appendMessage (m : Message)
  | clearPrompt
  | setLoading (b : Bool)
  | setError (e : Option String)
  | dropLastMessage
  | issueRequest (p : String)
  deriving DecidableEq, Repr

/-- Apply one effect to the component state. `issueRequest` does not itself
change local state; `dropLastMessage` removes the last element of the list,
exactly what `slice(0, -1)` returns (the empty list stays empty). -/
def applyEffect (s : ConvState) : Effect → ConvState
  | Effect.appendMessage m => { s with messages := s.messages ++ [m] }
  | Effect.clearPrompt => { s with prompt := "" }
  | Effect.setLoading b => { s with isLoading := b }
  | Effect.setError e => { s with error := e }
  | Effect.dropLastMessage => { s with messages := s.messages.dropLast }
  | Effect.issueRequest _ => s

/-- The trace of `handleSubmit` from state `s` when the outbound call
settles with outcome `o`, in source order: the guard on the trimmed prompt
(lines 14-18), the optimistic append, clearing the input, setting the
loading flag, clearing the error (lines 20-24), the request (lines 27-31),
then the success branch (lines 33-34) or the catch branch (lines 36-37),
then the `finally` block (line 39). -/
def handleSubmitTrace (s : ConvState) (o : Outcome) : List Effect :=
  let trimmedPrompt := jsTrim s.prompt
  if trimmedPrompt = "" then
    []
  else
    [Effect.appendMessage ⟨Role.user, trimmedPrompt⟩,
     Effect.clearPrompt,
     Effect.setLoading true,
     Effect.setError none,
     Effect.issueRequest trimmedPrompt] ++
    (match o with
     | Outcome.ok p =>
         [Effect.appendMessage ⟨Role.agent, nullishCoalesce p.response noResponseFallback⟩]
     | Outcome.failure _ =>
         [Effect.setError (some errorMessage), Effect.dropLastMessage]) ++
    [Effect.setLoading false]

/-- The state after `handleSubmit` has fully settled: the trace applied to
the starting state. -/
def handleSubmit (s : ConvState) (o : Outcome) : ConvState :=
  (handleSubmitTrace s o).foldl applyEffect s

/-- Every intermediate state of a submission, starting state included:
element `i` is the state after the first `i` effects. -/
def statesAlong (s : ConvState) (o : Outcome) : List ConvState :=
  (handleSubmitTrace s o).scanl applyEffect s

/-- How many outbound requests a submission issues: the number of
`issueRequest` effects in its trace. -/
def requestCount (s : ConvState) (o : Outcome) : Nat :=
  ((handleSubmitTrace s o).filter fun e =>
    match e with
    | Effect.issueRequest _ => true
    | _ => false).length

/-- The initial component state: all four useState hooks at their
initial values (empty prompt, no messages, not loading, no error). -/
def initialState : ConvState := ⟨"", [], false, none⟩

/-- The synchronous part of `handleSubmit` before the await (lines 14-24):
the guard, the optimistic append, clearing the input, raising the loading
flag and clearing the error. -/
def submitStart (s : ConvState) : ConvState :=
  let trimmedPrompt := jsTrim s.prompt
  if trimmedPrompt = "" then s
  else
    { s with
      messages := s.messages ++ [⟨Role.user, trimmedPrompt⟩],
      prompt := "",
      isLoading := true,
      error := none }

/-- The part of `handleSubmit` after the await settles (lines 33-39):
append the agent reply on success, or record the error and drop the last
message on failure; in both cases lower the loading flag. -/
def settleRequest (s : ConvState) (o : Outcome) : ConvState :=
  match o with
  | Outcome.ok p =>
      { s with
        messages :=
          s.messages ++ [⟨Role.agent, nullishCoalesce p.response noResponseFallback⟩],
        isLoading := false }
  | Outcome.failure _ =>
      { s with
        error := some errorMessage,
        messages := s.messages.dropLast,
        isLoading := false }

/-- States reachable through the UI: the initial render; typing in the
input (the onChange handler, available only while the input is not
disabled, i.e. while `isLoading` is false, per line 101); starting a
submission; and the settlement of an in-flight request. -/
inductive Reachable : ConvState → Prop
  | init : Reachable initialState
  | type (s : ConvState) (t : String) (hs : Reachable s)
      (h : s.isLoading = false) : Reachable { s with prompt := t }
  | start (s : ConvState) (hs : Reachable s) : Reachable (submitStart s)
  | settle (s : ConvState) (o : Outcome) (hs : Reachable s)
      (h : s.isLoading = true) : Reachable (settleRequest s o)

/-- Claim C5: for every prompt whose trimmed form is empty, submit is a
no-op: the trace is empty (so no state field is ever written, in particular
the loading flag is never set), the state is unchanged, and no outbound
call is issued. -/
theorem blank_prompt_submit_is_noop (s : ConvState) (o : Outcome)
    (h : jsTrim s.prompt = "") :
    handleSubmitTrace s o = [] ∧ handleSubmit s o = s ∧ requestCount s o = 0 := by
  refine ⟨?_, ?_, ?_⟩ <;> simp [handleSubmitTrace, handleSubmit, requestCount, h]

/-- Witness for C5 at a whitespace-only prompt with prior history. -/
theorem blank_prompt_submit_is_noop_witness :
    handleSubmitTrace ⟨"  ", [⟨Role.user, "x"⟩], false, none⟩
        (Outcome.ok ⟨JsVal.str "r"⟩) = []
      ∧ handleSubmit ⟨"  ", [⟨Role.user, "x"⟩], false, none⟩
        (Outcome.ok ⟨JsVal.str "r"⟩) = ⟨"  ", [⟨Role.user, "x"⟩], false, none⟩
      ∧ requestCount ⟨"  ", [⟨Role.user, "x"⟩], false, none⟩
        (Outcome.ok ⟨JsVal.str "r"⟩) = 0 :=
  blank_prompt_submit_is_noop ⟨"  ", [⟨Role.user, "x"⟩], false, none⟩
    (Outcome.ok ⟨JsVal.str "r"⟩) (by decide)

/-- Claim C1: for every prompt with non-empty trimmed form and every prior
message list, if the outbound call fails then after settlement the message
list equals the prior list (the optimistic user entry is rolled back) and
the error equals the fixed string; the input stays cleared and the loading
flag is down. -/
theorem submit_failure_is_net_noop_and_sets_error (s : ConvState)
    (k : FailureKind) (h : jsTrim s.prompt ≠ "") :
    handleSubmit s (Outcome.failure k)
      = ⟨"", s.messages, false, some errorMessage⟩ := by
  simp [handleSubmit, handleSubmitTrace, h, applyEffect]

/-- Witness for C1 at the spec example: empty history, prompt Buy AAPL?,
network failure. -/
theorem submit_failure_is_net_noop_and_sets_error_witness :
    handleSubmit ⟨"Buy AAPL?", [], false, none⟩
        (Outcome.failure FailureKind.networkError)
      = ⟨"", [], false, some errorMessage⟩ :=
  submit_failure_is_net_noop_and_sets_error ⟨"Buy AAPL?", [], false, none⟩
    FailureKind.networkError (by decide)

/-- Claim C2: for every prompt with non-empty trimmed form and every prior
message list, if the outbound call succeeds with a payload whose response
field is the string R, the final message list is the prior list followed by
exactly the user entry with the trimmed prompt and the agent entry with R. -/
theorem submit_success_appends_user_and_agent (s : ConvState) (R : String)
    (h : jsTrim s.prompt ≠ "") :
    handleSubmit s (Outcome.ok ⟨JsVal.str R⟩)
      = ⟨"", s.messages ++ [⟨Role.user, jsTrim s.prompt⟩, ⟨Role.agent, R⟩],
          false, none⟩ := by
  simp [handleSubmit, handleSubmitTrace, h, applyEffect, nullishCoalesce]

/-- Witness for C2 at the spec example: prompt Buy AAPL?, reply string. -/
theorem submit_success_appends_user_and_agent_witness :
    handleSubmit ⟨"Buy AAPL?", [], false, none⟩
        (Outcome.ok ⟨JsVal.str "Yes, 10 shares."⟩)
      = ⟨"", [⟨Role.user, "Buy AAPL?"⟩, ⟨Role.agent, "Yes, 10 shares."⟩],
          false, none⟩ :=
  submit_success_appends_user_and_agent ⟨"Buy AAPL?", [], false, none⟩
    "Yes, 10 shares." (by decide)

/-- Claim C6: if the success payload omits the response field (the field
reads as undefined), the appended agent message carries the fixed fallback
string. -/
theorem missing_response_field_uses_fallback (s : ConvState)
    (h : jsTrim s.prompt ≠ "") :
    handleSubmit s (Outcome.ok ⟨JsVal.undefined⟩)
      = ⟨"", s.messages ++ [⟨Role.user, jsTrim s.prompt⟩,
            ⟨Role.agent, noResponseFallback⟩],
          false, none⟩ := by
  simp [handleSubmit, handleSubmitTrace, h, applyEffect, nullishCoalesce]

/-- Witness for C6 at a concrete prompt and an absent response field. -/
theorem missing_response_field_uses_fallback_witness :
    handleSubmit ⟨"hello agent", [], false, none⟩ (Outcome.ok ⟨JsVal.undefined⟩)
      = ⟨"", [⟨Role.user, "hello agent"⟩, ⟨Role.agent, noResponseFallback⟩],
          false, none⟩ :=
  missing_response_field_uses_fallback ⟨"hello agent", [], false, none⟩ (by decide)

/-- Claim C9: if the success payload has the response field present but
null, the nullish coalescing maps it to the fixed fallback exactly as an
absent field, and null is never appended as content. -/
theorem null_response_field_uses_fallback (s : ConvState)
    (h : jsTrim s.prompt ≠ "") :
    handleSubmit s (Outcome.ok ⟨JsVal.null⟩)
      = ⟨"", s.messages ++ [⟨Role.user, jsTrim s.prompt⟩,
            ⟨Role.agent, noResponseFallback⟩],
          false, none⟩
      ∧ handleSubmit s (Outcome.ok ⟨JsVal.null⟩)
        = handleSubmit s (Outcome.ok ⟨JsVal.undefined⟩) := by
  constructor <;>
    simp [handleSubmit, handleSubmitTrace, h, applyEffect, nullishCoalesce]

/-- Witness for C9 at a concrete prompt and a null response field. -/
theorem null_response_field_uses_fallback_witness :
    (handleSubmit ⟨"status?", [], false, none⟩ (Outcome.ok ⟨JsVal.null⟩)
      = ⟨"", [⟨Role.user, "status?"⟩, ⟨Role.agent, noResponseFallback⟩],
          false, none⟩)
      ∧ handleSubmit ⟨"status?", [], false, none⟩ (Outcome.ok ⟨JsVal.null⟩)
        = handleSubmit ⟨"status?", [], false, none⟩ (Outcome.ok ⟨JsVal.undefined⟩) :=
  null_response_field_uses_fallback ⟨"status?", [], false, none⟩ (by decide)

/-- Claim C7: a success-status response with an unparseable body reaches
the catch block like every other failure: it yields exactly the failure
final state (error set, optimistic entry rolled back), every failure kind
yields the same final state as a network failure, and the trace never
contains the success-path append of the fallback agent message. -/
theorem malformed_body_treated_as_failure (s : ConvState) (k : FailureKind)
    (h : jsTrim s.prompt ≠ "") :
    handleSubmit s (Outcome.failure FailureKind.malformedBody)
        = ⟨"", s.messages, false, some errorMessage⟩
      ∧ handleSubmit s (Outcome.failure k)
        = handleSubmit s (Outcome.failure FailureKind.networkError)
      ∧ Effect.appendMessage ⟨Role.agent, noResponseFallback⟩
          ∉ handleSubmitTrace s (Outcome.failure FailureKind.malformedBody) := by
  refine ⟨?_, ?_, ?_⟩
  · simp [handleSubmit, handleSubmitTrace, h, applyEffect]
  · simp [handleSubmit, handleSubmitTrace, h, applyEffect]
  · simp [handleSubmitTrace, h]

/-- Witness for C7 at a concrete prompt, instantiated at the malformed-body
failure kind. -/
theorem malformed_body_treated_as_failure_witness :
    handleSubmit ⟨"plan?", [], false, none⟩
        (Outcome.failure FailureKind.malformedBody)
        = ⟨"", [], false, some errorMessage⟩
      ∧ handleSubmit ⟨"plan?", [], false, none⟩
          (Outcome.failure FailureKind.malformedBody)
        = handleSubmit ⟨"plan?", [], false, none⟩
          (Outcome.failure FailureKind.networkError)
      ∧ Effect.appendMessage ⟨Role.agent, noResponseFallback⟩
          ∉ handleSubmitTrace ⟨"plan?", [], false, none⟩
            (Outcome.failure FailureKind.malformedBody) :=
  malformed_body_treated_as_failure ⟨"plan?", [], false, none⟩
    FailureKind.malformedBody (by decide)

/-- Claim C3: for an accepted submission started with the flag down, the
loading flag along the intermediate states is false up to the setLoading
effect, true from there through the request and the settlement branch, and
false again in the final state, on both the success and the failure path;
moreover the trace has the single request at position 4, strictly inside
the window in which the flag is up (states 4 and 5). -/
theorem loading_flag_profile (s : ConvState)
    (h : jsTrim s.prompt ≠ "") (h0 : s.isLoading = false) :
    (∀ p : Payload, (statesAlong s (Outcome.ok p)).map ConvState.isLoading
      = [false, false, false, true, true, true, true, false])
    ∧ (∀ k : FailureKind,
        (statesAlong s (Outcome.failure k)).map ConvState.isLoading
      = [false, false, false, true, true, true, true, true, false])
    ∧ (∀ o : Outcome, (handleSubmitTrace s o).get? 4
      = some (Effect.issueRequest (jsTrim s.prompt))) := by
  refine ⟨fun p => ?_, fun k => ?_, fun o => ?_⟩
  · simp [statesAlong, handleSubmitTrace, h, h0, applyEffect, List.scanl]
  · simp [statesAlong, handleSubmitTrace, h, h0, applyEffect, List.scanl]
  · cases o <;> simp [handleSubmitTrace, h]

/-- Witness for C3: the success-path profile at a concrete state. -/
theorem loading_flag_profile_witness :
    (statesAlong ⟨"hello", [], false, none⟩
        (Outcome.ok ⟨JsVal.str "hi"⟩)).map ConvState.isLoading
      = [false, false, false, true, true, true, true, false] :=
  (loading_flag_profile ⟨"hello", [], false, none⟩ (by decide) rfl).1
    ⟨JsVal.str "hi"⟩

/-- Counterexample to claim C8 as stated: starting from prompt hi with a
previous error recorded, after the third effect the loading flag is already
true while the previous error is still present; it is cleared only by the
fourth effect. So the error is cleared after, not before, the flag goes up. -/
theorem error_cleared_after_flag_cex :
    (statesAlong ⟨"hi", [], false, some "previous"⟩
        (Outcome.ok ⟨JsVal.str "ok"⟩)).get? 3
      = some ⟨"", [⟨Role.user, "hi"⟩], true, some "previous"⟩
      ∧ (statesAlong ⟨"hi", [], false, some "previous"⟩
          (Outcome.ok ⟨JsVal.str "ok"⟩)).get? 4
        = some ⟨"", [⟨Role.user, "hi"⟩], true, none⟩ := by
  decide

/-- Claim C8 as amended: in every accepted submission the side effects
occur in source order: append the user message, clear the input, set the
loading flag to true, then clear the error, and only then issue the single
outbound call; the error is cleared after the loading flag goes up, not
before. -/
theorem submit_effect_order (s : ConvState) (o : Outcome)
    (h : jsTrim s.prompt ≠ "") :
    (handleSubmitTrace s o).take 5
      = [Effect.appendMessage ⟨Role.user, jsTrim s.prompt⟩,
         Effect.clearPrompt,
         Effect.setLoading true,
         Effect.setError none,
         Effect.issueRequest (jsTrim s.prompt)]
    ∧ requestCount s o = 1 := by
  constructor
  · cases o <;> simp [handleSubmitTrace, h]
  · cases o <;> simp [requestCount, handleSubmitTrace, h]

/-- Witness for C8 (amended) at a concrete accepted submission. -/
theorem submit_effect_order_witness :
    (handleSubmitTrace ⟨"go", [], false, none⟩
        (Outcome.failure FailureKind.non2xxStatus)).take 5
      = [Effect.appendMessage ⟨Role.user, "go"⟩,
         Effect.clearPrompt,
         Effect.setLoading true,
         Effect.setError none,
         Effect.issueRequest "go"]
    ∧ requestCount ⟨"go", [], false, none⟩
        (Outcome.failure FailureKind.non2xxStatus) = 1 :=
  submit_effect_order ⟨"go", [], false, none⟩
    (Outcome.failure FailureKind.non2xxStatus) (by decide)

/-- In every state reachable through the UI, while the loading flag is up
the controlled input is empty: submission clears the input before raising
the flag, and the disabled input prevents typing while the flag is up. -/
theorem reachable_in_flight_prompt_blank (s : ConvState) (hs : Reachable s) :
    s.isLoading = true → s.prompt = "" := by
  induction hs with
  | init => intro hl; simp [initialState] at hl
  | type s t hs hfalse ih => intro hl; simp [hfalse] at hl
  | start s hs ih =>
      intro hl
      by_cases hb : jsTrim s.prompt = ""
      · have hst : submitStart s = s := by simp [submitStart, hb]
        rw [hst] at hl ⊢
        exact ih hl
      · simp [submitStart, hb]
  | settle s o hs hflag ih =>
      intro hl
      cases o <;> simp [settleRequest] at hl

/-- Claim C4: at most one request in flight. In every reachable state with
the loading flag up, invoking the submit handler is ignored: it changes no
state and issues no outbound call, so no second request can start while one
is in flight. -/
theorem no_second_request_while_in_flight (s : ConvState) (o : Outcome)
    (hs : Reachable s) (h : s.isLoading = true) :
    handleSubmit s o = s ∧ requestCount s o = 0 := by
  have hp : s.prompt = "" := reachable_in_flight_prompt_blank s hs h
  have hb : jsTrim s.prompt = "" := by rw [hp]; decide
  exact ⟨by simp [handleSubmit, handleSubmitTrace, hb],
    by simp [requestCount, handleSubmitTrace, hb]⟩

/-- Witness for C4: the in-flight state reached by typing hi from the
initial state and starting the submission; a submit invoked there is a
no-op and issues no call. -/
theorem no_second_request_while_in_flight_witness :
    handleSubmit (submitStart { initialState with prompt := "hi" })
        (Outcome.ok ⟨JsVal.str "x"⟩)
      = submitStart { initialState with prompt := "hi" }
      ∧ requestCount (submitStart { initialState with prompt := "hi" })
        (Outcome.ok ⟨JsVal.str "x"⟩) = 0 :=
  no_second_request_while_in_flight _ _
    (Reachable.start _ (Reachable.type initialState "hi" Reachable.init rfl))
    (by decide)

/-- Claim C10: every invocation of submit keeps the prior message list as
an unmodified first segment of the final list; the final list has exactly
two extra entries on success and zero on a blank-prompt no-op and on
failure; and the loading flag is down again after settlement, so the
prompt and error fields are the only other state net-changed. -/
theorem submit_preserves_message_history_frame (s : ConvState) (o : Outcome)
    (h0 : s.isLoading = false) :
    (handleSubmit s o).messages.take s.messages.length = s.messages
    ∧ (handleSubmit s o).messages.length
      = s.messages.length +
        (match o with
         | Outcome.ok _ => if jsTrim s.prompt = "" then 0 else 2
         | Outcome.failure _ => 0)
    ∧ (handleSubmit s o).isLoading = false := by
  by_cases hb : jsTrim s.prompt = ""
  · cases o <;>
      simp [handleSubmit, handleSubmitTrace, hb, h0, List.take_length]
  · cases o with
    | ok p =>
        refine ⟨?_, ?_, ?_⟩ <;>
          simp [handleSubmit, handleSubmitTrace, hb, applyEffect,
            List.take_left]
    | failure k =>
        refine ⟨?_, ?_, ?_⟩ <;>
          simp [handleSubmit, handleSubmitTrace, hb, applyEffect,
            List.take_length]

/-- Witness for C10: a success settlement on a two-message history keeps
the history as the first segment and adds exactly two entries. -/
theorem submit_preserves_message_history_frame_witness :
    (handleSubmit ⟨"next", [⟨Role.user, "a"⟩, ⟨Role.agent, "b"⟩], false, none⟩
        (Outcome.ok ⟨JsVal.str "c"⟩)).messages.take 2
      = [⟨Role.user, "a"⟩, ⟨Role.agent, "b"⟩]
      ∧ (handleSubmit ⟨"next", [⟨Role.user, "a"⟩, ⟨Role.agent, "b"⟩],
          false, none⟩ (Outcome.ok ⟨JsVal.str "c"⟩)).messages.length
        = 2 + (if jsTrim "next" = "" then 0 else 2)
      ∧ (handleSubmit ⟨"next", [⟨Role.user, "a"⟩, ⟨Role.agent, "b"⟩],
          false, none⟩ (Outcome.ok ⟨JsVal.str "c"⟩)).isLoading = false :=
  submit_preserves_message_history_frame
    ⟨"next", [⟨Role.user, "a"⟩, ⟨Role.agent, "b"⟩], false, none⟩
    (Outcome.ok ⟨JsVal.str "c"⟩) rfl

end SuperAgent
